import Mathlib

/-!
# Verification of the pytest-docker-compose lifecycle manager

A shallow embedding of `src/pytest_docker_compose/__init__.py` and proofs of
the specified properties of its container-group lifecycle management.

Modelling conventions:
* A compose `Container` is a record of the fields the plugin reads: its
  `name`, its port-binding metadata `ports` (the engine reports a mapping
  from container-port identifier to a list of `{HostIp, HostPort}` entries),
  the raw bytes returned by `logs()`, and the `network_info` attribute that
  `generate_scoped_containers_fixture` attaches (absent, i.e. `none`, until
  it is assigned).
* A compose `Project` is modelled at its engine interface: the list of
  containers `containers()` currently reports as running, and the list of
  containers a call to `up()` would return.
* Side effects on the engine and on stdout are recorded as an explicit
  `Effect` trace returned alongside each operation's value.
* Python exceptions are modelled structurally by `PluginError`; fallible
  operations return `Except PluginError`.
* Python dicts built by comprehensions are modelled as association lists
  built by in-order insertion where a later duplicate key overwrites the
  earlier entry (`pyDictOf`).
-/

/-- One host binding reported by the engine for a container port:
a `{HostIp, HostPort}` entry of the port-binding metadata. -/
structure PortConfig where
  hostIp : String
  hostPort : Nat
deriving DecidableEq

/-- `NetworkInfo`: info about how to connect to a service exposed by a
Docker container (`container_port`, `hostname`, `host_port`). -/
structure NetworkInfo where
  container_port : String
  hostname : String
  host_port : Nat
deriving DecidableEq

/-- A running compose container, restricted to the attributes the plugin
reads or writes.  `logs` holds the raw bytes returned by `container.logs()`;
`network_info` models the attribute of the same name, absent (`none`) until
`generate_scoped_containers_fixture` assigns it. -/
structure Container where
  name : String
  ports : List (String × List PortConfig)
  logs : List Nat
  network_info : Option (List NetworkInfo) := none
deriving DecidableEq

/-- A compose `Project` modelled at its engine interface: `running` is what
`docker_project.containers()` reports, `upResult` is the container list a
call to `docker_project.up()` returns. -/
structure Project where
  running : List Container
  upResult : List Container
deriving DecidableEq

/-- The data `project_from_options` is given to construct the project handle:
the project directory and the compose file name. -/
structure ProjectHandle where
  projectDir : String
  fileName : String
deriving DecidableEq

/-- `compose.service.ImageType`: which images `down` removes. -/
inductive ImageType where
  | none
  | local
  | all
deriving DecidableEq

/-- An observable side effect of the plugin: a `print` to stdout, a call to
`project.up()`, a call to `project.down(images, include_volumes)`, or a call
to `project.build()`. -/
inductive Effect where
  | print (s : String)
  | up
  | down (images : ImageType) (includeVolumes : Bool)
  | build
deriving DecidableEq

/-- The exceptions the plugin can raise, modelled structurally:
* `containerAlreadyExist` — the `ContainerAlreadyExist` exception raised by
  `_containers_up` (its message renders the running containers);
* `noContainersLaunched` — the `ValueError` raised by `_containers_up` when
  `up()` returned no containers;
* `unableToFindConfig` — the `ValueError` raised by the `docker_project`
  fixture when the compose file cannot be found (its message names the path);
* `missingPositionalArg` — a Python `TypeError` for a call that supplies
  fewer positional arguments than the callee requires. -/
inductive PluginError where
  | containerAlreadyExist (running : List Container)
  | noContainersLaunched
  | unableToFindConfig (path : String)
  | missingPositionalArg (fn : String) (arg : String)
deriving DecidableEq

/-- Overwrite-or-append insertion for the association-list model of a Python
dict: assigning to an existing key replaces its value in place, a new key is
appended. -/
def dictInsert {α : Type} (k : String) (v : α) :
    List (String × α) → List (String × α)
  | [] => [(k, v)]
  | kv :: d => if kv.1 = k then (k, v) :: d else kv :: dictInsert k v d

/-- A Python dict comprehension: the key/value pairs are inserted in
iteration order, a later duplicate key overwriting the earlier entry. -/
def pyDictOf {α : Type} (kvs : List (String × α)) : List (String × α) :=
  kvs.foldl (fun d kv => dictInsert kv.1 kv.2 d) []

/-- `create_network_info_for_container(container)`: one `NetworkInfo` per
`(container_port, port_config)` pair of `container.ports`, with
`hostname = port_config["HostIp"] or "localhost"` (the engine reports `""`
for an unset bind address, which is falsy) and
`host_port = port_config["HostPort"]`. -/
def create_network_info_for_container (container : Container) :
    List NetworkInfo :=
  (container.ports.map fun pc =>
    pc.2.map fun port_config =>
      { container_port := pc.1
        hostname := if port_config.hostIp = "" then "localhost"
                    else port_config.hostIp
        host_port := port_config.hostPort }).flatten

/-- `DockerComposePlugin._containers_up(docker_project)`: if
`any(docker_project.containers())` (compose `Container` objects are truthy,
so this tests non-emptiness) raise `ContainerAlreadyExist` without calling
`up()`; otherwise call `up()` and raise `ValueError` if it returned no
containers, else return them.  The second component is the effect trace. -/
def containers_up (docker_project : Project) :
    Except PluginError (List Container) × List Effect :=
  if docker_project.running.any fun _ => true then
    (.error (.containerAlreadyExist docker_project.running), [])
  else
    let containers := docker_project.upResult
    if containers = [] then (.error .noContainersLaunched, [.up])
    else (.ok containers, [.up])

/-- The Unicode replacement character U+FFFD. -/
def replacementChar : Char := Char.ofNat 0xFFFD

/-- Is `b` a UTF-8 continuation byte (`0x80..0xBF`)? -/
def isUtf8Cont (b : Nat) : Bool := 0x80 ≤ b && b ≤ 0xBF

/-- Admissible second byte of a three-byte UTF-8 sequence with lead byte `b`
(`0xE0` excludes overlong encodings, `0xED` excludes surrogates). -/
def utf8Second3Ok (b c1 : Nat) : Bool :=
  if b = 0xE0 then 0xA0 ≤ c1 && c1 ≤ 0xBF
  else if b = 0xED then 0x80 ≤ c1 && c1 ≤ 0x9F
  else isUtf8Cont c1

/-- Admissible second byte of a four-byte UTF-8 sequence with lead byte `b`
(`0xF0` excludes overlong encodings, `0xF4` excludes values above U+10FFFF). -/
def utf8Second4Ok (b c1 : Nat) : Bool :=
  if b = 0xF0 then 0x90 ≤ c1 && c1 ≤ 0xBF
  else if b = 0xF4 then 0x80 ≤ c1 && c1 ≤ 0x8F
  else isUtf8Cont c1

/-- `bytes.decode("utf-8", errors="replace")`: UTF-8 decoding where each
maximal subpart of an ill-formed subsequence is replaced by U+FFFD (the
behaviour of CPython's `replace` error handler: a malformed lead byte, or a
well-formed prefix that cannot be extended, yields one replacement character
and decoding resumes at the offending byte). -/
def utf8DecodeReplace : List Nat → List Char
  | [] => []
  | b :: bs =>
    if b < 0x80 then
      Char.ofNat b :: utf8DecodeReplace bs
    else if b < 0xC2 then
      replacementChar :: utf8DecodeReplace bs
    else if b < 0xE0 then
      match bs with
      | [] => [replacementChar]
      | c1 :: bs1 =>
        if isUtf8Cont c1 then
          Char.ofNat ((b - 0xC0) * 0x40 + (c1 - 0x80)) :: utf8DecodeReplace bs1
        else
          replacementChar :: utf8DecodeReplace (c1 :: bs1)
    else if b < 0xF0 then
      match bs with
      | [] => [replacementChar]
      | c1 :: bs1 =>
        if utf8Second3Ok b c1 then
          match bs1 with
          | [] => [replacementChar]
          | c2 :: bs2 =>
            if isUtf8Cont c2 then
              Char.ofNat ((b - 0xE0) * 0x1000 + (c1 - 0x80) * 0x40 + (c2 - 0x80)) ::
                utf8DecodeReplace bs2
            else
              replacementChar :: utf8DecodeReplace (c2 :: bs2)
        else
          replacementChar :: utf8DecodeReplace (c1 :: bs1)
    else if b < 0xF5 then
      match bs with
      | [] => [replacementChar]
      | c1 :: bs1 =>
        if utf8Second4Ok b c1 then
          match bs1 with
          | [] => [replacementChar]
          | c2 :: bs2 =>
            if isUtf8Cont c2 then
              match bs2 with
              | [] => [replacementChar]
              | c3 :: bs3 =>
                if isUtf8Cont c3 then
                  Char.ofNat ((b - 0xF0) * 0x40000 + (c1 - 0x80) * 0x1000 +
                      (c2 - 0x80) * 0x40 + (c3 - 0x80)) ::
                    utf8DecodeReplace bs3
                else
                  replacementChar :: utf8DecodeReplace (c3 :: bs3)
            else
              replacementChar :: utf8DecodeReplace (c2 :: bs2)
        else
          replacementChar :: utf8DecodeReplace (c1 :: bs1)
    else
      replacementChar :: utf8DecodeReplace bs

/-- Is `bs` a well-formed UTF-8 byte sequence?  Mirrors the sequence grammar
of RFC 3629 (no overlong forms, no surrogates, nothing above U+10FFFF). -/
def isValidUtf8 : List Nat → Bool
  | [] => true
  | b :: bs =>
    if b < 0x80 then isValidUtf8 bs
    else if b < 0xC2 then false
    else if b < 0xE0 then
      match bs with
      | [] => false
      | c1 :: bs1 => isUtf8Cont c1 && isValidUtf8 bs1
    else if b < 0xF0 then
      match bs with
      | [] => false
      | c1 :: bs1 =>
        utf8Second3Ok b c1 &&
          match bs1 with
          | [] => false
          | c2 :: bs2 => isUtf8Cont c2 && isValidUtf8 bs2
    else if b < 0xF5 then
      match bs with
      | [] => false
      | c1 :: bs1 =>
        utf8Second4Ok b c1 &&
          match bs1 with
          | [] => false
          | c2 :: bs2 =>
            isUtf8Cont c2 &&
              match bs2 with
              | [] => false
              | c3 :: bs3 => isUtf8Cont c3 && isValidUtf8 bs3
    else false

/-- `container.logs().decode("utf-8", errors="replace") or "(no logs)"`:
the decoded log text, or the placeholder when the decoded string is empty
(the empty string is falsy, so `or` selects the placeholder exactly then). -/
def logsText (container : Container) : String :=
  let s := String.mk (utf8DecodeReplace container.logs)
  if s = "" then "(no logs)" else s

/-- The block of `print` calls `_containers_down` performs for one
container: the header line, an underline of `=` of the header's length, the
decoded logs (or the placeholder), and the blank line of a bare `print()`. -/
def reportEffects (container : Container) : List Effect :=
  let header := "Logs from " ++ container.name ++ ":"
  [.print header,
   .print (String.mk (List.replicate header.length (Char.ofNat 0x3D))),
   .print (logsText container),
   .print ""]

/-- The comparison underlying `sorted(docker_containers, key=lambda c: c.name)`. -/
def nameLe (a b : Container) : Prop := a.name ≤ b.name

instance : DecidableRel nameLe := fun a b =>
  inferInstanceAs (Decidable (a.name ≤ b.name))

instance : IsTotal Container nameLe := ⟨fun a b => le_total a.name b.name⟩

instance : IsTrans Container nameLe := ⟨fun _ _ _ => le_trans⟩

/-- `sorted(docker_containers, key=lambda c: c.name)`. -/
def sortByName (docker_containers : List Container) : List Container :=
  docker_containers.insertionSort nameLe

/-- `DockerComposePlugin._containers_down(docker_project, docker_containers)`:
print each container's log block, iterating the containers sorted by name,
then call `docker_project.down(ImageType.none, False)`.  Returns the effect
trace. -/
def containers_down (docker_project : Project)
    (docker_containers : List Container) : List Effect :=
  ((sortByName docker_containers).map reportEffects).flatten ++
    [.down ImageType.none false]

/-- `DockerComposePlugin._extract_network_info(docker_containers,
docker_project)`: the dict comprehension
`{container.name: create_network_info_for_container(container) for container
in docker_containers}`.  The `docker_project` parameter is declared by the
signature but never read by the body. -/
def extract_network_info (docker_containers : List Container)
    (docker_project : Project) : List (String × List NetworkInfo) :=
  pyDictOf (docker_containers.map fun container =>
    (container.name, create_network_info_for_container container))

/-- Number of required positional parameters of the staticmethod
`_extract_network_info`: `docker_containers` and `docker_project`. -/
def extract_network_info_paramCount : Nat := 2

/-- Number of positional arguments the `docker_network_info` fixture body
supplies in its call `self._extract_network_info(docker_containers)`
(`_extract_network_info` is a staticmethod, so `self` is not passed). -/
def docker_network_info_argCount : Nat := 1

/-- The `docker_network_info` fixture: its whole body is
`return self._extract_network_info(docker_containers)`.  Python raises
`TypeError` when a call supplies fewer positional arguments than the callee
requires, so the call succeeds only if the argument count matches the
parameter count — in which case a second argument would be available to
forward (the `absurd` branch is reachable only under that count equality). -/
def docker_network_info (docker_containers : List Container) :
    Except PluginError (List (String × List NetworkInfo)) :=
  if h : docker_network_info_argCount = extract_network_info_paramCount then
    .ok (extract_network_info docker_containers (absurd h (by decide)))
  else
    .error (.missingPositionalArg "_extract_network_info" "docker_project")

/-- The filesystem as the fixture queries it: the sets of paths for which
`Path.is_dir()` respectively `Path.is_file()` hold. -/
structure FileSystem where
  dirs : List String
  files : List String
deriving DecidableEq

/-- `Path.is_dir()`. -/
def FileSystem.isDir (fs : FileSystem) (p : String) : Bool := fs.dirs.contains p

/-- `Path.is_file()`. -/
def FileSystem.isFile (fs : FileSystem) (p : String) : Bool := fs.files.contains p

/-- The two pytest options the plugin registers: `--docker-compose`
(a path string, default `"."`) and `--docker-compose-no-build`
(a flag, `False` unless given). -/
structure Config where
  docker_compose : String
  no_build : Bool
deriving DecidableEq

/-- `Path(p).parent` rendered on the path strings this model builds:
everything before the last `/`, or `.` when there is no `/`. -/
def pathParent (p : String) : String :=
  let parts := p.splitOn "/"
  if parts.length ≤ 1 then "." else String.intercalate "/" parts.dropLast

/-- `Path(p).name`: the component after the last `/`. -/
def pathName (p : String) : String := (p.splitOn "/").getLastD p

/-- The path-reassignment prefix of the `docker_project` fixture: take the
`--docker-compose` option and, if it is a directory, descend to
`docker-compose.yml` inside it. -/
def resolvedComposePath (fs : FileSystem) (cfg : Config) : String :=
  if fs.isDir cfg.docker_compose then
    cfg.docker_compose ++ "/docker-compose.yml"
  else cfg.docker_compose

/-- The session-scoped `docker_project` fixture: after the path
reassignment of `resolvedComposePath`, if the resulting path is not a file,
raise `ValueError`; otherwise build the project handle via
`project_from_options(project_dir=parent, --file=[name])` and, unless
`--docker-compose-no-build` was given, call `project.build()`. -/
def docker_project (fs : FileSystem) (cfg : Config) :
    Except PluginError ProjectHandle × List Effect :=
  let docker_compose := resolvedComposePath fs cfg
  if !fs.isFile docker_compose then
    (.error (.unableToFindConfig docker_compose), [])
  else
    let project : ProjectHandle :=
      ⟨pathParent docker_compose, pathName docker_compose⟩
    if !cfg.no_build then (.ok project, [.build])
    else (.ok project, [])

/-- `generate_scoped_containers_fixture(scope)` up to the `yield`: run
`_containers_up`, assign
`container.network_info = create_network_info_for_container(container)` on
each returned container, and yield the dict
`{container.name: container for container in containers}`.  The `scope`
argument only tags the pytest fixture's lifetime and does not enter the
body.  (The teardown after the `yield` is `containers_down`.) -/
def generate_scoped_containers_fixture (scope : String) :
    Project → Except PluginError (List (String × Container)) × List Effect :=
  fun docker_project =>
    match containers_up docker_project with
    | (.error e, tr) => (.error e, tr)
    | (.ok containers, tr) =>
      let containers := containers.map fun container =>
        { container with
            network_info := some (create_network_info_for_container container) }
      (.ok (pyDictOf (containers.map fun container =>
        (container.name, container))), tr)

/-- C2: whenever `containers()` reports at least one running container,
`_containers_up` raises `ContainerAlreadyExist` and performs no effect — in
particular it never calls `up()`, so no additional containers are started
and the external state is left unchanged. -/
theorem containers_up_conflict (p : Project) (h : p.running ≠ []) :
    containers_up p = (.error (.containerAlreadyExist p.running), []) := by
  cases hr : p.running with
  | nil => exact absurd hr h
  | cons c l => simp [containers_up, hr]

/-- Witness for `containers_up_conflict` at a concrete project with one
running container. -/
theorem containers_up_conflict_witness :
    containers_up ⟨[⟨"db", [], [], none⟩], []⟩ =
      (.error (.containerAlreadyExist [⟨"db", [], [], none⟩]), []) :=
  containers_up_conflict ⟨[⟨"db", [], [], none⟩], []⟩ (by decide)

/-- C3: with no pre-existing running containers, `_containers_up` calls
`up()` and then raises the no-containers `ValueError` exactly when `up()`
returned the empty list, and otherwise returns exactly the list `up()`
produced. -/
theorem containers_up_fresh (p : Project) (h : p.running = []) :
    (p.upResult = [] → containers_up p = (.error .noContainersLaunched, [.up])) ∧
    (p.upResult ≠ [] → containers_up p = (.ok p.upResult, [.up])) := by
  refine ⟨fun hu => ?_, fun hu => ?_⟩ <;> simp [containers_up, h, hu]

/-- Witness for `containers_up_fresh`: both branches at concrete projects. -/
theorem containers_up_fresh_witness :
    containers_up ⟨[], []⟩ = (.error .noContainersLaunched, [.up]) ∧
    containers_up ⟨[], [⟨"web", [], [], none⟩]⟩ =
      (.ok [⟨"web", [], [], none⟩], [.up]) :=
  ⟨(containers_up_fresh ⟨[], []⟩ rfl).1 rfl,
   (containers_up_fresh ⟨[], [⟨"web", [], [], none⟩]⟩ rfl).2 (by decide)⟩

/-- A concrete container whose single port binding has an unset bind
address, as in the spec's worked example. -/
def webC : Container := ⟨"web", [("80/tcp", [⟨"", 32768⟩])], [], none⟩

/-- A concrete container with one exposed-but-unpublished port and one
published port. -/
def portsC : Container :=
  ⟨"svc", [("80/tcp", []), ("90/tcp", [⟨"1.2.3.4", 1234⟩])], [], none⟩

/-- C5: `create_network_info_for_container` emits a `NetworkInfo` for every
`(container_port, host-binding)` pair, whose hostname is the reported bind
address, or `"localhost"` when that address is the empty string, and whose
`host_port` is the binding's port number; on the port map
`{"80/tcp": [{HostIp: "", HostPort: 32768}]}` it returns exactly one
`NetworkInfo ⟨"80/tcp", "localhost", 32768⟩`. -/
theorem create_network_info_spec :
    (∀ (c : Container) (cp : String) (cfgs : List PortConfig)
        (cfg : PortConfig), (cp, cfgs) ∈ c.ports → cfg ∈ cfgs →
        (⟨cp, if cfg.hostIp = "" then "localhost" else cfg.hostIp,
            cfg.hostPort⟩ : NetworkInfo) ∈
          create_network_info_for_container c) ∧
    create_network_info_for_container webC =
      [⟨"80/tcp", "localhost", 32768⟩] := by
  constructor
  · intro c cp cfgs cfg hmem hcfg
    simp only [create_network_info_for_container, List.mem_flatten,
      List.mem_map]
    exact ⟨_, ⟨(cp, cfgs), hmem, rfl⟩, List.mem_map.2 ⟨cfg, hcfg, rfl⟩⟩
  · rfl

/-- Witness for `create_network_info_spec` at the membership component. -/
theorem create_network_info_spec_witness :
    (⟨"80/tcp", "localhost", 32768⟩ : NetworkInfo) ∈
      create_network_info_for_container webC := by
  have h := create_network_info_spec.1 webC "80/tcp" [⟨"", 32768⟩]
    ⟨"", 32768⟩ (by simp [webC]) (by simp)
  simpa using h

/-- C9: the number of `NetworkInfo` values returned equals the sum over the
container ports of the number of host bindings of each, and a container
port all of whose entries have an empty binding list contributes no
`NetworkInfo` at all. -/
theorem create_network_info_count (c : Container) :
    (create_network_info_for_container c).length =
      (c.ports.map fun pc => pc.2.length).sum ∧
    (∀ cp : String, (∀ cfgs, (cp, cfgs) ∈ c.ports → cfgs = []) →
      ∀ ni ∈ create_network_info_for_container c, ni.container_port ≠ cp) := by
  constructor
  · simp [create_network_info_for_container, List.map_map, Function.comp_def]
  · intro cp hempty ni hni hcontra
    simp only [create_network_info_for_container, List.mem_flatten,
      List.mem_map] at hni
    obtain ⟨s, ⟨pc, hpc, rfl⟩, hni⟩ := hni
    obtain ⟨cfg, hcfg, rfl⟩ := List.mem_map.1 hni
    have hpc2 : pc.2 = [] := hempty pc.2 (by
      have : (cp, pc.2) = pc := by
        rw [← hcontra]
      exact this ▸ hpc)
    rw [hpc2] at hcfg
    exact absurd hcfg (List.not_mem_nil cfg)

/-- Witness for `create_network_info_count` at `portsC`. -/
theorem create_network_info_count_witness :
    (create_network_info_for_container portsC).length = 1 ∧
    ∀ ni ∈ create_network_info_for_container portsC,
      ni.container_port ≠ "80/tcp" := by
  refine ⟨(create_network_info_count portsC).1.trans (by decide), ?_⟩
  intro ni hni
  refine (create_network_info_count portsC).2 "80/tcp" ?_ ni hni
  intro cfgs hm
  simp only [portsC, List.mem_cons, List.not_mem_nil, or_false,
    Prod.mk.injEq] at hm
  rcases hm with ⟨_, h⟩ | ⟨h, _⟩
  · exact h
  · exact absurd h (by decide)

/-- C8: the `docker_project` fixture raises the unable-to-find `ValueError`
exactly when the configured path, after descending into a directory, is not
a file — with an empty effect trace, so no build runs and no container is
started; otherwise it returns the project handle for that path and calls
`build()` if and only if `--docker-compose-no-build` is absent. -/
theorem docker_project_spec (fs : FileSystem) (cfg : Config) :
    (fs.isFile (resolvedComposePath fs cfg) = false →
      docker_project fs cfg =
        (.error (.unableToFindConfig (resolvedComposePath fs cfg)), [])) ∧
    (fs.isFile (resolvedComposePath fs cfg) = true →
      (docker_project fs cfg).1 =
        .ok ⟨pathParent (resolvedComposePath fs cfg),
             pathName (resolvedComposePath fs cfg)⟩ ∧
      ((docker_project fs cfg).2 = [.build] ↔ cfg.no_build = false)) := by
  refine ⟨fun h => ?_, fun h => ?_⟩
  · simp [docker_project, h]
  · cases hb : cfg.no_build <;> simp [docker_project, h, hb]

/-- Witness for `docker_project_spec`: the missing-file case on an empty
filesystem, and the build/no-build cases on a filesystem holding the
compose file. -/
theorem docker_project_spec_witness :
    docker_project ⟨[], []⟩ ⟨".", false⟩ =
      (.error (.unableToFindConfig "."), []) ∧
    (docker_project ⟨[], ["docker-compose.yml"]⟩
        ⟨"docker-compose.yml", false⟩).2 = [.build] ∧
    (docker_project ⟨[], ["docker-compose.yml"]⟩
        ⟨"docker-compose.yml", true⟩).2 = [] := by
  exact ⟨(docker_project_spec ⟨[], []⟩ ⟨".", false⟩).1 (by decide),
    ((docker_project_spec ⟨[], ["docker-compose.yml"]⟩
        ⟨"docker-compose.yml", false⟩).2 (by decide)).2.mpr rfl,
    by decide⟩

/-- C10: when the configured path is a directory, the fixture succeeds
exactly when the file named `docker-compose.yml` directly inside that
directory exists; a directory whose compose definition carries any other
file name makes the fixture raise the unable-to-find `ValueError`. -/
theorem docker_project_dir_search (fs : FileSystem) (cfg : Config)
    (hdir : fs.isDir cfg.docker_compose = true) :
    ((∃ h, (docker_project fs cfg).1 = .ok h) ↔
      fs.isFile (cfg.docker_compose ++ "/docker-compose.yml") = true) ∧
    (fs.isFile (cfg.docker_compose ++ "/docker-compose.yml") = false →
      docker_project fs cfg =
        (.error (.unableToFindConfig
          (cfg.docker_compose ++ "/docker-compose.yml")), [])) := by
  cases hf : fs.isFile (cfg.docker_compose ++ "/docker-compose.yml") <;>
    cases hb : cfg.no_build <;>
    simp [docker_project, resolvedComposePath, hdir, hf, hb]

/-- Witness for `docker_project_dir_search`: a directory holding the
definition only under the name `compose.yaml` fails, while one holding
`docker-compose.yml` succeeds. -/
theorem docker_project_dir_search_witness :
    docker_project ⟨["proj"], ["proj/compose.yaml"]⟩ ⟨"proj", false⟩ =
      (.error (.unableToFindConfig "proj/docker-compose.yml"), []) ∧
    ∃ h, (docker_project ⟨["proj"], ["proj/docker-compose.yml"]⟩
        ⟨"proj", false⟩).1 = .ok h :=
  ⟨(docker_project_dir_search ⟨["proj"], ["proj/compose.yaml"]⟩
      ⟨"proj", false⟩ (by decide)).2 (by decide),
   (docker_project_dir_search ⟨["proj"], ["proj/docker-compose.yml"]⟩
      ⟨"proj", false⟩ (by decide)).1.mpr (by decide)⟩

/-- C4: `_containers_down` iterates a name-sorted permutation of the given
containers — so each instance's log block is emitted exactly once, in
ascending name order — and every effect before the final one is a `print`;
the single engine call is the trailing `down` with image removal disabled
(`ImageType.none`) and volume removal disabled (`include_volumes=False`). -/
theorem containers_down_spec (p : Project) (cs : List Container) :
    (sortByName cs).Perm cs ∧
    List.Sorted nameLe (sortByName cs) ∧
    containers_down p cs =
      ((sortByName cs).map reportEffects).flatten ++
        [.down ImageType.none false] ∧
    ∀ e ∈ ((sortByName cs).map reportEffects).flatten, ∃ s, e = .print s := by
  refine ⟨List.perm_insertionSort nameLe cs,
    List.sorted_insertionSort nameLe cs, rfl, ?_⟩
  intro e he
  obtain ⟨blk, hblk, he⟩ := List.mem_flatten.1 he
  obtain ⟨c, _, rfl⟩ := List.mem_map.1 hblk
  simp only [reportEffects, List.mem_cons, List.not_mem_nil, or_false] at he
  rcases he with rfl | rfl | rfl | rfl <;> exact ⟨_, rfl⟩

/-- Decoding with replacement never discards a non-empty payload entirely:
every byte contributes to some decoded character. -/
theorem utf8DecodeReplace_ne_nil (b : Nat) (bs : List Nat) :
    utf8DecodeReplace (b :: bs) ≠ [] := by
  rw [utf8DecodeReplace.eq_def]
  intro hcontra
  repeat' split at hcontra
  all_goals simp_all

/-- Fueled form of `utf8DecodeReplace_repl_of_invalid`, by induction on the
fuel bound on the byte list's length. -/
theorem utf8DecodeReplace_repl_of_invalid_fueled :
    ∀ (n : Nat) (bs : List Nat), bs.length ≤ n → isValidUtf8 bs = false →
      replacementChar ∈ utf8DecodeReplace bs := by
  intro n
  induction n with
  | zero =>
    intro bs hlen h
    cases bs with
    | nil => rw [isValidUtf8.eq_def] at h; exact absurd h (by simp)
    | cons b bs => simp at hlen
  | succ n ih =>
    intro bs hlen h
    cases bs with
    | nil => rw [isValidUtf8.eq_def] at h; exact absurd h (by simp)
    | cons b bs =>
      simp only [List.length_cons] at hlen
      rw [isValidUtf8.eq_def] at h
      rw [utf8DecodeReplace.eq_def]
      by_cases h1 : b < 0x80
      · simp only [if_pos h1] at h ⊢
        exact List.mem_cons_of_mem _ (ih bs (by omega) h)
      · by_cases h2 : b < 0xC2
        · simp [h1, h2]
        · by_cases h3 : b < 0xE0
          · cases bs with
            | nil => simp [h1, h2, h3]
            | cons c1 bs1 =>
              simp only [List.length_cons] at hlen
              by_cases hc1 : isUtf8Cont c1 = true
              · simp only [h1, h2, h3, hc1, if_false, if_true, if_neg,
                  not_false_iff, Bool.true_and] at h ⊢
                exact List.mem_cons_of_mem _ (ih bs1 (by omega) h)
              · simp [h1, h2, h3, hc1]
          · by_cases h4 : b < 0xF0
            · cases bs with
              | nil => simp [h1, h2, h3, h4]
              | cons c1 bs1 =>
                simp only [List.length_cons] at hlen
                by_cases hs3 : utf8Second3Ok b c1 = true
                · cases bs1 with
                  | nil => simp [h1, h2, h3, h4, hs3]
                  | cons c2 bs2 =>
                    simp only [List.length_cons] at hlen
                    by_cases hc2 : isUtf8Cont c2 = true
                    · simp only [h1, h2, h3, h4, hs3, hc2, if_false, if_true,
                        if_neg, not_false_iff, Bool.true_and] at h ⊢
                      exact List.mem_cons_of_mem _ (ih bs2 (by omega) h)
                    · simp [h1, h2, h3, h4, hs3, hc2]
                · simp [h1, h2, h3, h4, hs3]
            · by_cases h5 : b < 0xF5
              · cases bs with
                | nil => simp [h1, h2, h3, h4, h5]
                | cons c1 bs1 =>
                  simp only [List.length_cons] at hlen
                  by_cases hs4 : utf8Second4Ok b c1 = true
                  · cases bs1 with
                    | nil => simp [h1, h2, h3, h4, h5, hs4]
                    | cons c2 bs2 =>
                      simp only [List.length_cons] at hlen
                      by_cases hc2 : isUtf8Cont c2 = true
                      · cases bs2 with
                        | nil =>
                          simp [h1, h2, h3, h4, h5, hs4, hc2]
                        | cons c3 bs3 =>
                          simp only [List.length_cons] at hlen
                          by_cases hc3 : isUtf8Cont c3 = true
                          · simp only [h1, h2, h3, h4, h5, hs4, hc2, hc3,
                              if_false, if_true, if_neg, not_false_iff,
                              Bool.true_and] at h ⊢
                            exact List.mem_cons_of_mem _ (ih bs3 (by omega) h)
                          · simp [h1, h2, h3, h4, h5, hs4, hc2, hc3]
                      · simp [h1, h2, h3, h4, h5, hs4, hc2]
                  · simp [h1, h2, h3, h4, h5, hs4]
              · simp [h1, h2, h3, h4, h5]

/-- An ill-formed byte sequence always decodes to text containing at least
one replacement character. -/
theorem utf8DecodeReplace_repl_of_invalid (bs : List Nat)
    (h : isValidUtf8 bs = false) : replacementChar ∈ utf8DecodeReplace bs :=
  utf8DecodeReplace_repl_of_invalid_fueled bs.length bs le_rfl h

/-- A concrete container whose log payload is not valid UTF-8. -/
def badC : Container := ⟨"bad", [], [0xFF], none⟩

/-- C6: the log report of every container in the set is emitted, whatever
bytes its payload holds — decoding is total, so an undecodable payload
never raises and never aborts the reporting of subsequent instances; an
ill-formed payload is reported as text containing the replacement
character, and an empty decoded payload is reported as `"(no logs)"`. -/
theorem containers_down_logs_robust (p : Project) (cs : List Container)
    (c : Container) (hc : c ∈ cs) :
    Effect.print (logsText c) ∈ containers_down p cs ∧
    (isValidUtf8 c.logs = false → replacementChar ∈ (logsText c).data) ∧
    (utf8DecodeReplace c.logs = [] → logsText c = "(no logs)") := by
  refine ⟨?_, ?_, ?_⟩
  · have hmem : c ∈ sortByName cs :=
      (List.perm_insertionSort nameLe cs).mem_iff.mpr hc
    refine List.mem_append_left _ (List.mem_flatten.2
      ⟨reportEffects c, List.mem_map_of_mem _ hmem, ?_⟩)
    simp [reportEffects]
  · intro hinv
    have hne : c.logs ≠ [] := by
      intro h0
      rw [h0, isValidUtf8.eq_def] at hinv
      exact absurd hinv (by simp)
    obtain ⟨b, bs, hbs⟩ : ∃ b bs, c.logs = b :: bs := by
      cases hl : c.logs with
      | nil => exact absurd hl hne
      | cons b bs => exact ⟨b, bs, rfl⟩
    have hdec : utf8DecodeReplace c.logs ≠ [] := by
      rw [hbs]; exact utf8DecodeReplace_ne_nil b bs
    have hstr : logsText c = String.mk (utf8DecodeReplace c.logs) := by
      simp only [logsText]
      exact if_neg fun hs => hdec (congrArg String.data hs)
    rw [hstr]
    exact utf8DecodeReplace_repl_of_invalid c.logs hinv
  · intro h0
    simp [logsText, h0]

/-- Witness for `containers_down_logs_robust` at a container whose log
payload is the invalid byte `0xFF`. -/
theorem containers_down_logs_robust_witness :
    Effect.print (logsText badC) ∈ containers_down ⟨[], []⟩ [badC] ∧
    replacementChar ∈ (logsText badC).data :=
  ⟨(containers_down_logs_robust ⟨[], []⟩ [badC] badC (by simp)).1,
   (containers_down_logs_robust ⟨[], []⟩ [badC] badC (by simp)).2.1
     (by decide)⟩

/-- Every entry of `dictInsert k v d` is the inserted pair or an entry of
`d`. -/
theorem mem_dictInsert {α : Type} (k : String) (v : α) (d : List (String × α))
    (nc : String × α) (h : nc ∈ dictInsert k v d) : nc = (k, v) ∨ nc ∈ d := by
  induction d with
  | nil => simpa [dictInsert] using h
  | cons kv d ih =>
    rw [dictInsert] at h
    by_cases hk : kv.1 = k
    · rw [if_pos hk] at h
      rcases List.mem_cons.1 h with h | h
      · exact Or.inl h
      · exact Or.inr (List.mem_cons_of_mem _ h)
    · rw [if_neg hk] at h
      rcases List.mem_cons.1 h with h | h
      · exact Or.inr (h ▸ List.mem_cons_self kv d)
      · rcases ih h with h | h
        · exact Or.inl h
        · exact Or.inr (List.mem_cons_of_mem _ h)

/-- Every entry of the dict built from `kvs` is one of the inserted
key/value pairs. -/
theorem mem_pyDictOf {α : Type} (kvs : List (String × α)) (nc : String × α)
    (h : nc ∈ pyDictOf kvs) : nc ∈ kvs := by
  suffices haux : ∀ (l : List (String × α)) (acc : List (String × α)),
      nc ∈ l.foldl (fun d kv => dictInsert kv.1 kv.2 d) acc →
      nc ∈ acc ∨ nc ∈ l by
    rcases haux kvs [] h with h0 | h0
    · exact absurd h0 (List.not_mem_nil nc)
    · exact h0
  intro l
  induction l with
  | nil => exact fun acc h0 => Or.inl h0
  | cons kv l ih =>
    intro acc h0
    rcases ih (dictInsert kv.1 kv.2 acc) h0 with h1 | h1
    · rcases mem_dictInsert kv.1 kv.2 acc nc h1 with h2 | h2
      · exact Or.inr (h2 ▸ List.mem_cons_self kv l)
      · exact Or.inl h2
    · exact Or.inr (List.mem_cons_of_mem _ h1)

/-- `create_network_info_for_container` reads only the port map, so
assigning the `network_info` attribute does not change its result. -/
theorem create_network_info_ignores_attr (c : Container)
    (x : Option (List NetworkInfo)) :
    create_network_info_for_container { c with network_info := x } =
      create_network_info_for_container c := rfl

/-- C7: whatever the requested fixture scope, when the scoped-containers
fixture yields a mapping, every entry maps an instance name to the instance
itself, and that instance carries in its `network_info` attribute exactly
the endpoint list `create_network_info_for_container` resolves for it. -/
theorem scoped_fixture_attaches_network_info (scope : String) (p : Project)
    (m : List (String × Container)) (tr : List Effect)
    (h : generate_scoped_containers_fixture scope p = (.ok m, tr)) :
    ∀ nc ∈ m, nc.1 = nc.2.name ∧
      nc.2.network_info = some (create_network_info_for_container nc.2) := by
  intro nc hnc
  rw [generate_scoped_containers_fixture] at h
  rcases hcu : containers_up p with ⟨res, tr2⟩
  rw [hcu] at h
  cases res with
  | error e => exact absurd (congrArg Prod.fst h) (by simp)
  | ok containers =>
    simp only [Prod.mk.injEq, Except.ok.injEq] at h
    obtain ⟨hm, -⟩ := h
    rw [← hm] at hnc
    have hkv := mem_pyDictOf _ nc hnc
    obtain ⟨c2, hc2, rfl⟩ := List.mem_map.1 hkv
    obtain ⟨c, -, rfl⟩ := List.mem_map.1 hc2
    exact ⟨rfl, congrArg some
      (create_network_info_ignores_attr c _).symm⟩

/-- The container of the C7 witness: `webC` after the fixture assigned its
resolved endpoint list. -/
def webC7 : Container :=
  ⟨"web", [("80/tcp", [⟨"", 32768⟩])], [],
   some [⟨"80/tcp", "localhost", 32768⟩]⟩

/-- Witness for `scoped_fixture_attaches_network_info` on a project whose
`up()` yields `webC`. -/
theorem scoped_fixture_attaches_network_info_witness :
    ("web", webC7).1 = ("web", webC7).2.name ∧
    ("web", webC7).2.network_info =
      some (create_network_info_for_container ("web", webC7).2) :=
  scoped_fixture_attaches_network_info "session" ⟨[], [webC]⟩
    [("web", webC7)] [.up] rfl ("web", webC7) (by simp)

/-- C1 (code defect): the `docker_network_info` fixture never returns the
name-to-`NetworkInfo` mapping its docstring promises — its call
`self._extract_network_info(docker_containers)` supplies one positional
argument to a staticmethod whose signature requires two
(`docker_containers`, `docker_project`), so every invocation raises
`TypeError` instead. -/
theorem docker_network_info_type_error (docker_containers : List Container) :
    docker_network_info docker_containers =
      .error (.missingPositionalArg "_extract_network_info"
        "docker_project") := by
  simp [docker_network_info, docker_network_info_argCount,
    extract_network_info_paramCount]
